import Mathlib

/-!
Verification of the numerical core of the Car-Speed-Simulation repository.

Shallow embedding of the two components under src/backend/cpp:
the EKF motion estimator (ekf.cpp / ekf.hpp) and the longitudinal
vehicle-dynamics engine (physics_engine.cpp / physics_engine.hpp).
C++ doubles are modelled as real numbers (exact arithmetic); Eigen
dynamic vectors at the checked entry points are modelled as lists,
and the fixed-size internals as functions out of Fin 5 / Fin 2.
The diagnostic std::cout lines of the C++ are pure text output and
are not part of the value-level model.
-/

noncomputable section

open scoped Classical

open Matrix

/-- Yaw normalization loop of EKF::predict (ekf.cpp lines 58-59):
while (yaw_new > M_PI) yaw_new -= 2*M_PI; while (yaw_new < -M_PI) yaw_new += 2*M_PI.
Written in closed form: the first loop runs ceil((y-pi)/(2 pi)) times when y > pi,
the second runs ceil((-pi-y)/(2 pi)) times when y < -pi, and otherwise y is unchanged. -/
def wrap (y : ℝ) : ℝ :=
  if Real.pi < y then y - 2 * Real.pi * (⌈(y - Real.pi) / (2 * Real.pi)⌉ : ℤ)
  else if y < -Real.pi then y + 2 * Real.pi * (⌈(-Real.pi - y) / (2 * Real.pi)⌉ : ℤ)
  else y

/-- Mutable data of one EKF instance (ekf.hpp). The matrices F_, H_, Q_, R_ are
never observed with values other than the ones derived from dt_ and the fixed
constants below (the constructor sets them from dt_, and predict overwrites F_
from dt_ before its only use), so only dt_, x_ and P_ are carried as state. -/
structure EKF where
  dt_ : ℝ
  x_ : Fin 5 → ℝ
  P_ : Matrix (Fin 5) (Fin 5) ℝ

/-- State-transition matrix F_: identity with F(0,2) = F(1,3) = dt (ekf.cpp 10-12, 70-72). -/
def Fmat (dt : ℝ) : Matrix (Fin 5) (Fin 5) ℝ :=
  Matrix.of
    ![![1, 0, dt, 0, 0],
      ![0, 1, 0, dt, 0],
      ![0, 0, 1, 0, 0],
      ![0, 0, 0, 1, 0],
      ![0, 0, 0, 0, 1]]

/-- Observation matrix H_: zero with H(0,0) = H(1,1) = 1 (ekf.cpp 15-17). -/
def Hmat : Matrix (Fin 2) (Fin 5) ℝ :=
  Matrix.of ![![1, 0, 0, 0, 0], ![0, 1, 0, 0, 0]]

/-- Process-noise matrix Q_ (ekf.cpp 20-24). -/
def Qmat : Matrix (Fin 5) (Fin 5) ℝ :=
  Matrix.diagonal ![0.001, 0.001, 0.05, 0.05, 0.01]

/-- Measurement-noise matrix R_ (ekf.cpp 27-29). -/
def Rmat : Matrix (Fin 2) (Fin 2) ℝ :=
  Matrix.diagonal ![3, 3]

/-- Constructor EKF::EKF(dt) (ekf.cpp 6-34): x_ = 0, P_ = 10 * identity. -/
def mkEKF (dt : ℝ) : EKF :=
  ⟨dt, fun _ => 0, (10 : ℝ) • 1⟩

def initErrMsg : String := "EKF::init: wrong state size"

def updateErrMsg : String := "EKF::update: wrong measurement size"

/-- EKF::init (ekf.cpp 36-43): size check, then x_ = x0 and P_ = 10 * identity.
The returned pair is the object state after the call together with the thrown
error, if any; a throw happens before any mutation, leaving the state intact. -/
def EKF.init (e : EKF) (x0 : List ℝ) : EKF × Option String :=
  if x0.length = 5 then
    ({ e with x_ := fun i => x0.getD i 0, P_ := (10 : ℝ) • 1 }, none)
  else (e, some initErrMsg)

/-- EKF::setDeltaT (ekf.cpp 45-51). -/
def EKF.setDeltaT (e : EKF) (dt : ℝ) : EKF :=
  { e with dt_ := dt }

/-- EKF::predict (ekf.cpp 53-74). -/
def EKF.predict (e : EKF) (ax_body yaw_rate : ℝ) : EKF :=
  let yaw := e.x_ 4
  let yaw_new := wrap (yaw + yaw_rate * e.dt_)
  let ax_w := ax_body * Real.cos yaw
  let ay_w := ax_body * Real.sin yaw
  let vx_new := e.x_ 2 + ax_w * e.dt_
  let vy_new := e.x_ 3 + ay_w * e.dt_
  let x_new := e.x_ 0 + e.x_ 2 * e.dt_ + 0.5 * ax_w * e.dt_ * e.dt_
  let y_new := e.x_ 1 + e.x_ 3 * e.dt_ + 0.5 * ay_w * e.dt_ * e.dt_
  { e with
    x_ := ![x_new, y_new, vx_new, vy_new, yaw_new],
    P_ := Fmat e.dt_ * e.P_ * (Fmat e.dt_)ᵀ + Qmat }

/-- Innovation covariance S = H * P * H^T + R (ekf.cpp 83). -/
def EKF.Smat (e : EKF) : Matrix (Fin 2) (Fin 2) ℝ :=
  Hmat * e.P_ * Hmatᵀ + Rmat

/-- Kalman gain K = P * H^T * S^-1 (ekf.cpp 85). -/
def EKF.Kmat (e : EKF) : Matrix (Fin 5) (Fin 2) ℝ :=
  e.P_ * Hmatᵀ * (e.Smat)⁻¹

/-- Body of EKF::update after the size check (ekf.cpp 80-91):
x = x + K*(z - H*x), P = (I - K*H)*P. -/
def EKF.updateCore (e : EKF) (z : Fin 2 → ℝ) : EKF :=
  { e with
    x_ := e.x_ + (e.Kmat).mulVec (z - Hmat.mulVec e.x_),
    P_ := (1 - e.Kmat * Hmat) * e.P_ }

/-- EKF::update (ekf.cpp 76-91): size check then linear correction.
Same state-and-error convention as EKF.init. -/
def EKF.update (e : EKF) (z : List ℝ) : EKF × Option String :=
  if z.length = 2 then (e.updateCore (fun i => z.getD i 0), none)
  else (e, some updateErrMsg)

/-- EKF::state (ekf.cpp 93-95). -/
def EKF.state (e : EKF) : Fin 5 → ℝ :=
  e.x_

/-- VehicleState (physics_engine.hpp 7-19). -/
structure VehicleState where
  speed_ms : ℝ
  acceleration_ms2 : ℝ
  position_m : ℝ
  grade_rad : ℝ
  elevation_m : ℝ
  engine_rpm : ℝ
  current_gear : ℤ
  throttle_percent : ℝ
  brake_percent : ℝ

/-- VehicleParams (physics_engine.hpp 21-47) with its default member values.
The C++ fields gear_ratios and final_drive_ratio are called gearRatios and
finalDrive here. -/
structure VehicleParams where
  mass_kg : ℝ := 1400.0
  frontal_area_m2 : ℝ := 2.1
  drag_coefficient : ℝ := 0.28
  rolling_resistance : ℝ := 0.012
  max_engine_power_kw : ℝ := 125.0
  max_torque_nm : ℝ := 220.0
  idle_rpm : ℝ := 800.0
  max_rpm : ℝ := 6500.0
  optimal_rpm : ℝ := 4000.0
  max_brake_force_n : ℝ := 9000.0
  brake_disc_radius_m : ℝ := 0.15
  gravity_ms2 : ℝ := 9.81
  air_density : ℝ := 1.225
  gearRatios : Fin 6 → ℝ := ![3.54, 2.06, 1.36, 1.03, 0.84, 0.70]
  finalDrive : ℝ := 4.35
  wheel_radius_m : ℝ := 0.32

/-- The default-constructed parameter record used by the application. -/
def defaultParams : VehicleParams := {}

/-- Access gear_ratios[g-1] for a 1-based gear g. A C++ access out of [0,6)
is undefined behaviour; it is modelled as 0 here, and the theorems below show
that every index reached from the engine entry points is in bounds. -/
def gearRatioAt (p : VehicleParams) (g : ℤ) : ℝ :=
  if h : 0 ≤ g - 1 ∧ g - 1 < 6 then p.gearRatios ⟨(g - 1).toNat, by omega⟩ else 0

/-- PhysicsEngine::calculateDragForce (physics_engine.cpp 14-18). -/
def calculateDragForce (p : VehicleParams) (speed_ms : ℝ) : ℝ :=
  0.5 * p.air_density * p.drag_coefficient * p.frontal_area_m2 * speed_ms * speed_ms

/-- PhysicsEngine::calculateRollingResistance (physics_engine.cpp 20-24). -/
def calculateRollingResistance (p : VehicleParams) (speed_ms : ℝ) : ℝ :=
  p.rolling_resistance * p.mass_kg * p.gravity_ms2 * (1.0 + speed_ms / 100.0)

/-- PhysicsEngine::calculateGradeResistance (physics_engine.cpp 26-29). -/
def calculateGradeResistance (p : VehicleParams) (grade_rad : ℝ) : ℝ :=
  p.mass_kg * p.gravity_ms2 * Real.sin grade_rad

/-- PhysicsEngine::calculateEngineRPM (physics_engine.cpp 32-37):
out-of-range gears are clamped to 1 before the table access. -/
def calculateEngineRPM (p : VehicleParams) (speed_ms : ℝ) (gear : ℤ) : ℝ :=
  let g := if gear < 1 ∨ 6 < gear then 1 else gear
  let gr := gearRatioAt p g
  let wheel_speed_rpm := speed_ms / p.wheel_radius_m * 60.0 / (2.0 * Real.pi)
  wheel_speed_rpm * gr * p.finalDrive

/-- PhysicsEngine::selectOptimalGear (physics_engine.cpp 40-53): the loop
returns the first gear in 1..6 whose RPM at speed lies in
[idle_rpm, 0.85*max_rpm] and whose RPM at the target speed is at most
0.9*max_rpm (a failure of either test continues the loop), else gear 1. -/
def selectOptimalGear (p : VehicleParams) (speed_ms target_speed_ms : ℝ) : ℤ :=
  let ok : ℤ → Prop := fun g =>
    p.idle_rpm ≤ calculateEngineRPM p speed_ms g ∧
    calculateEngineRPM p speed_ms g ≤ p.max_rpm * 0.85 ∧
    calculateEngineRPM p target_speed_ms g ≤ p.max_rpm * 0.9
  if ok 1 then 1 else if ok 2 then 2 else if ok 3 then 3
  else if ok 4 then 4 else if ok 5 then 5 else if ok 6 then 6 else 1

/-- PhysicsEngine::calculateEngineTorque (physics_engine.cpp 56-75). -/
def calculateEngineTorque (p : VehicleParams) (rpm throttle_percent : ℝ) : ℝ :=
  let tr :=
    if rpm < p.idle_rpm then 0.3
    else if rpm < p.optimal_rpm then
      0.6 + 0.4 * ((rpm - p.idle_rpm) / (p.optimal_rpm - p.idle_rpm))
    else if rpm < p.max_rpm * 0.8 then 1.0
    else 1.0 - 0.3 * ((rpm - p.max_rpm * 0.8) / (p.max_rpm * 0.2))
  let tr2 := max 0.2 (min 1.0 tr)
  p.max_torque_nm * tr2 * (throttle_percent / 100.0)

/-- PhysicsEngine::calculateEngineForce (physics_engine.cpp 87-96): note the
gear_ratios access here is NOT clamped; gear must come in already in [1,6]. -/
def calculateEngineForce (p : VehicleParams) (speed_ms throttle_percent : ℝ) (gear : ℤ) : ℝ :=
  let rpm := calculateEngineRPM p speed_ms gear
  let torque_nm := calculateEngineTorque p rpm throttle_percent
  let totalR := gearRatioAt p gear * p.finalDrive
  torque_nm * totalR / p.wheel_radius_m

/-- PhysicsEngine::calculateBrakeForce (physics_engine.cpp 98-100). -/
def calculateBrakeForce (p : VehicleParams) (brake_percent : ℝ) : ℝ :=
  p.max_brake_force_n * (brake_percent / 100.0)

/-- PhysicsEngine::calculateAcceleration (physics_engine.cpp 102-168). -/
def calculateAcceleration (p : VehicleParams)
    (current_speed_ms target_speed_ms grade_rad distance_to_target_m : ℝ) : ℝ :=
  let c := max 0 current_speed_ms
  let t := max 0 target_speed_ms
  let speed_error := t - c
  let need_accel := 0.1 < speed_error
  let need_brake := speed_error < -0.1
  let drag_force := calculateDragForce p c
  let rolling_force := calculateRollingResistance p c
  let grade_force := calculateGradeResistance p grade_rad
  let total_resistance := drag_force + rolling_force + grade_force
  let desired_accel := max (-6.0) (min 4.0 (0.25 * speed_error))
  let net_force :=
    if need_accel then
      let gear := selectOptimalGear p c t
      let throttle0 := max 0.0 (min 100.0 (desired_accel * 20.0 + 8.0))
      let throttle := if c < 3.0 then min throttle0 35.0 else throttle0
      let engine_force := calculateEngineForce p c throttle gear
      let nf := engine_force - total_resistance
      let max_available_accel := min (engine_force / p.mass_kg) 4.0
      min nf (p.mass_kg * max_available_accel)
    else if need_brake then
      let brake_percent := max 0.0 (min 100.0 (-desired_accel * 8.0))
      let brake_force := calculateBrakeForce p brake_percent
      max (-(brake_force + total_resistance)) (-(p.mass_kg * 8.0))
    else 0.0
  max (-6.0) (min 4.0 (net_force / p.mass_kg))

/-- PhysicsEngine::simulateStep (physics_engine.cpp 170-198). -/
def simulateStep (p : VehicleParams) (dt : ℝ) (current_state : VehicleState)
    (target_speed_ms distance_to_target_m : ℝ) : VehicleState :=
  let a := calculateAcceleration p current_state.speed_ms target_speed_ms
    current_state.grade_rad distance_to_target_m
  let v := max 0.0 (current_state.speed_ms + a * dt)
  let displacement := current_state.speed_ms * dt + 0.5 * a * dt * dt
  { current_state with
    acceleration_ms2 := a,
    speed_ms := v,
    position_m := current_state.position_m + displacement }

/-! Helper lemmas. -/

/-- EKF.init on an input of the right size. -/
lemma EKF_init_of_length (e : EKF) (l : List ℝ) (h : l.length = 5) :
    e.init l = ({ e with x_ := fun i => l.getD i 0, P_ := (10 : ℝ) • 1 }, none) := by
  simp [EKF.init, h]

/-- The state vector written by EKF.predict, as a vector literal. -/
lemma predict_x_eq (e : EKF) (a w : ℝ) :
    (e.predict a w).x_ =
      ![e.x_ 0 + e.x_ 2 * e.dt_ + 0.5 * (a * Real.cos (e.x_ 4)) * e.dt_ * e.dt_,
        e.x_ 1 + e.x_ 3 * e.dt_ + 0.5 * (a * Real.sin (e.x_ 4)) * e.dt_ * e.dt_,
        e.x_ 2 + a * Real.cos (e.x_ 4) * e.dt_,
        e.x_ 3 + a * Real.sin (e.x_ 4) * e.dt_,
        wrap (e.x_ 4 + w * e.dt_)] := rfl

/-- The covariance written by EKF.predict. -/
lemma predict_P_eq (e : EKF) (a w : ℝ) :
    (e.predict a w).P_ = Fmat e.dt_ * e.P_ * (Fmat e.dt_)ᵀ + Qmat := rfl

/-- The yaw component written by EKF.predict. -/
lemma predict_x4 (e : EKF) (a w : ℝ) :
    (e.predict a w).x_ 4 = wrap (e.x_ 4 + w * e.dt_) := by
  rw [predict_x_eq]
  simp only [Matrix.cons_val_four, Matrix.tail_cons, Matrix.head_cons]

/-- The normalization loop always lands in the closed interval [-pi, pi]. -/
lemma wrap_mem (y : ℝ) : -Real.pi ≤ wrap y ∧ wrap y ≤ Real.pi := by
  have hpi := Real.pi_pos
  have h2 : (0 : ℝ) < 2 * Real.pi := by linarith
  unfold wrap
  split_ifs with h1 hneg
  · have hle : (y - Real.pi) / (2 * Real.pi) ≤ (⌈(y - Real.pi) / (2 * Real.pi)⌉ : ℤ) :=
      Int.le_ceil _
    have hlt : ((⌈(y - Real.pi) / (2 * Real.pi)⌉ : ℤ) : ℝ) <
        (y - Real.pi) / (2 * Real.pi) + 1 := Int.ceil_lt_add_one _
    rw [div_le_iff₀ h2] at hle
    have hlt2 : ((⌈(y - Real.pi) / (2 * Real.pi)⌉ : ℤ) : ℝ) - 1 <
        (y - Real.pi) / (2 * Real.pi) := by linarith
    have hlt3 := (lt_div_iff₀ h2).mp hlt2
    constructor <;> nlinarith [hle, hlt3]
  · have hle : (-Real.pi - y) / (2 * Real.pi) ≤
        (⌈(-Real.pi - y) / (2 * Real.pi)⌉ : ℤ) := Int.le_ceil _
    have hlt : ((⌈(-Real.pi - y) / (2 * Real.pi)⌉ : ℤ) : ℝ) <
        (-Real.pi - y) / (2 * Real.pi) + 1 := Int.ceil_lt_add_one _
    rw [div_le_iff₀ h2] at hle
    have hlt2 : ((⌈(-Real.pi - y) / (2 * Real.pi)⌉ : ℤ) : ℝ) - 1 <
        (-Real.pi - y) / (2 * Real.pi) := by linarith
    have hlt3 := (lt_div_iff₀ h2).mp hlt2
    constructor <;> nlinarith [hle, hlt3]
  · push_neg at h1 hneg
    exact ⟨hneg, h1⟩

/-- The normalization loop leaves -pi unchanged: both loop guards are false there. -/
lemma wrap_neg_pi : wrap (-Real.pi) = -Real.pi := by
  have hpi := Real.pi_pos
  unfold wrap
  rw [if_neg (by linarith), if_neg (by linarith)]

/-- The gear returned by selectOptimalGear is one of the literals 1..6. -/
lemma selectOptimalGear_bounds (p : VehicleParams) (v t : ℝ) :
    1 ≤ selectOptimalGear p v t ∧ selectOptimalGear p v t ≤ 6 := by
  simp only [selectOptimalGear]
  split_ifs <;> norm_num

/-- The gear returned by selectOptimalGear is the fallback 1, or passed the
loop test and so has RPM at the current speed at most 0.85 * max_rpm. -/
lemma selectGear_cases (p : VehicleParams) (v t : ℝ) :
    selectOptimalGear p v t = 1 ∨
    calculateEngineRPM p v (selectOptimalGear p v t) ≤ p.max_rpm * 0.85 := by
  simp only [selectOptimalGear]
  split_ifs with o1 o2 o3 o4 o5 o6
  · exact Or.inl rfl
  · exact Or.inr o2.2.1
  · exact Or.inr o3.2.1
  · exact Or.inr o4.2.1
  · exact Or.inr o5.2.1
  · exact Or.inr o6.2.1
  · exact Or.inl rfl

lemma gearRatioAt_one : gearRatioAt defaultParams 1 = 3.54 := by
  rw [gearRatioAt, dif_pos (show (0:ℤ) ≤ 1 - 1 ∧ (1:ℤ) - 1 < 6 by norm_num)]
  rfl

lemma gearRatioAt_two : gearRatioAt defaultParams 2 = 2.06 := by
  rw [gearRatioAt, dif_pos (show (0:ℤ) ≤ 2 - 1 ∧ (2:ℤ) - 1 < 6 by norm_num)]
  rfl

lemma gearRatioAt_three : gearRatioAt defaultParams 3 = 1.36 := by
  rw [gearRatioAt, dif_pos (show (0:ℤ) ≤ 3 - 1 ∧ (3:ℤ) - 1 < 6 by norm_num)]
  rfl

lemma gearRatioAt_four : gearRatioAt defaultParams 4 = 1.03 := by
  rw [gearRatioAt, dif_pos (show (0:ℤ) ≤ 4 - 1 ∧ (4:ℤ) - 1 < 6 by norm_num)]
  rfl

lemma gearRatioAt_five : gearRatioAt defaultParams 5 = 0.84 := by
  rw [gearRatioAt, dif_pos (show (0:ℤ) ≤ 5 - 1 ∧ (5:ℤ) - 1 < 6 by norm_num)]
  rfl

lemma gearRatioAt_six : gearRatioAt defaultParams 6 = 0.70 := by
  rw [gearRatioAt, dif_pos (show (0:ℤ) ≤ 6 - 1 ∧ (6:ℤ) - 1 < 6 by norm_num)]
  rfl

/-- At 100 m/s every in-range gear of the default car spins the engine past
0.85 * max_rpm = 5525 RPM (the slowest, gear 6, is at about 9087 RPM). -/
lemma rpm100_gear (g : ℤ) (h1 : 1 ≤ g) (h6 : g ≤ 6)
    (hr : 0.7 ≤ gearRatioAt defaultParams g) :
    defaultParams.max_rpm * 0.85 < calculateEngineRPM defaultParams 100 g := by
  have hpi : Real.pi < 3.15 := Real.pi_lt_315
  have hpi0 := Real.pi_pos
  have h2 : (0 : ℝ) < 2.0 * Real.pi := by positivity
  simp only [calculateEngineRPM]
  rw [if_neg (not_or.mpr ⟨not_lt.mpr h1, not_lt.mpr h6⟩)]
  have key : (100 : ℝ) / defaultParams.wheel_radius_m * 60.0 / (2.0 * Real.pi) *
      gearRatioAt defaultParams g * defaultParams.finalDrive =
      100 / defaultParams.wheel_radius_m * 60.0 * gearRatioAt defaultParams g *
        defaultParams.finalDrive / (2.0 * Real.pi) := by
    ring
  rw [key, lt_div_iff₀ h2]
  have hw : defaultParams.wheel_radius_m = 0.32 := rfl
  have hf : defaultParams.finalDrive = 4.35 := rfl
  have hm : defaultParams.max_rpm = 6500 := by norm_num [defaultParams]
  rw [hw, hf, hm]
  nlinarith [hpi, hpi0, hr]

/-- Over the reals, conjugate transpose is plain transpose. -/
lemma realCT {m n : Type*} (A : Matrix m n ℝ) : Aᴴ = Aᵀ := by
  ext i j
  simp [Matrix.conjTranspose_apply, Matrix.transpose_apply]

lemma Qmat_psd : Qmat.PosSemidef := by
  unfold Qmat
  refine Matrix.posSemidef_diagonal_iff.mpr fun i => ?_
  fin_cases i <;> norm_num

lemma Rmat_psd : Rmat.PosSemidef := by
  unfold Rmat
  refine Matrix.posSemidef_diagonal_iff.mpr fun i => ?_
  fin_cases i <;> norm_num

lemma Smat_eq (e : EKF) : e.Smat = Hmat * e.P_ * Hmatᵀ + Rmat := rfl

lemma Kmat_eq (e : EKF) : e.Kmat = e.P_ * Hmatᵀ * (e.Smat)⁻¹ := rfl

lemma updateCore_P_eq (e : EKF) (z : Fin 2 → ℝ) :
    (e.updateCore z).P_ = (1 - e.Kmat * Hmat) * e.P_ := rfl

/-- P after predict is a congruence of P plus a PSD diagonal, hence PSD. -/
lemma predict_P_psd (e : EKF) (a w : ℝ) (hP : e.P_.PosSemidef) :
    (e.predict a w).P_.PosSemidef := by
  rw [predict_P_eq]
  have h1 : (Fmat e.dt_ * e.P_ * (Fmat e.dt_)ᵀ).PosSemidef := by
    rw [← realCT (Fmat e.dt_)]
    exact hP.mul_mul_conjTranspose_same (Fmat e.dt_)
  exact h1.add Qmat_psd

/-- Joseph-form identity: for the gain K = P H^T S^-1 with S invertible,
(I - K H) P equals the manifestly PSD expression
(I - K H) P (I - K H)^H + K R K^H. -/
lemma joseph (e : EKF) (hdet : IsUnit e.Smat.det) :
    (1 - e.Kmat * Hmat) * e.P_ =
      (1 - e.Kmat * Hmat) * e.P_ * (1 - e.Kmat * Hmat)ᴴ +
        e.Kmat * Rmat * e.Kmatᴴ := by
  have hKS : e.Kmat * e.Smat = e.P_ * Hmatᵀ := by
    rw [Kmat_eq, Matrix.mul_assoc, Matrix.nonsing_inv_mul _ hdet, Matrix.mul_one]
  have hHPH : Hmat * e.P_ * Hmatᵀ = e.Smat - Rmat := by
    rw [Smat_eq e]
    exact (add_sub_cancel_right _ _).symm
  have hMPH : (1 - e.Kmat * Hmat) * e.P_ * Hmatᵀ = e.Kmat * Rmat := by
    have expand : (1 - e.Kmat * Hmat) * e.P_ * Hmatᵀ =
        e.P_ * Hmatᵀ - e.Kmat * (Hmat * e.P_ * Hmatᵀ) := by
      simp only [Matrix.sub_mul, Matrix.one_mul, Matrix.mul_assoc]
    rw [expand, hHPH, Matrix.mul_sub, hKS, sub_sub_cancel]
  have hMt : (1 - e.Kmat * Hmat)ᴴ = 1 - Hmatᴴ * e.Kmatᴴ := by
    simp [Matrix.conjTranspose_sub, Matrix.conjTranspose_one, Matrix.conjTranspose_mul]
  rw [hMt, realCT Hmat, Matrix.mul_sub, Matrix.mul_one, ← Matrix.mul_assoc, hMPH]
  abel

/-- P after the body of update is PSD when the prior P is PSD and S invertible. -/
lemma updateCore_P_psd (e : EKF) (z : Fin 2 → ℝ) (hP : e.P_.PosSemidef)
    (hdet : IsUnit e.Smat.det) : (e.updateCore z).P_.PosSemidef := by
  rw [updateCore_P_eq, joseph e hdet]
  exact (hP.mul_mul_conjTranspose_same _).add (Rmat_psd.mul_mul_conjTranspose_same _)

/-- A real PSD matrix equals its transpose. -/
lemma psd_transpose_eq {A : Matrix (Fin 5) (Fin 5) ℝ} (h : A.PosSemidef) : Aᵀ = A := by
  rw [← realCT A]
  exact h.isHermitian

lemma smul_one_psd : ((10 : ℝ) • (1 : Matrix (Fin 5) (Fin 5) ℝ)).PosSemidef := by
  have hdiag : (10 : ℝ) • (1 : Matrix (Fin 5) (Fin 5) ℝ) =
      Matrix.diagonal (fun _ => 10) := by
    ext i j
    by_cases h : i = j <;>
      simp [Matrix.smul_apply, Matrix.one_apply, Matrix.diagonal_apply, h]
  rw [hdiag]
  exact Matrix.posSemidef_diagonal_iff.mpr fun i => by norm_num

/-- The innovation covariance of a fresh filter is 13 * identity. -/
lemma mkEKF_Smat : (mkEKF 0.1).Smat = Matrix.diagonal ![13, 13] := by
  show Hmat * ((10 : ℝ) • 1) * Hmatᵀ + Rmat = _
  ext i j
  fin_cases i <;> fin_cases j <;>
    simp [Hmat, Rmat, Matrix.mul_apply, Fin.sum_univ_five, Fin.sum_univ_two,
      Matrix.smul_apply, Matrix.one_apply, Matrix.diagonal_apply,
      Matrix.transpose_apply, Matrix.of_apply, Matrix.vecHead, Matrix.vecTail] <;>
    norm_num

lemma mkEKF_Smat_det : IsUnit (mkEKF 0.1).Smat.det := by
  rw [mkEKF_Smat, Matrix.det_diagonal]
  refine isUnit_iff_ne_zero.mpr ?_
  rw [Fin.prod_univ_two]
  norm_num

/-! Claim theorems. -/

/-- C5: update with a measurement whose size is not 2, and init with a state whose
size is not 5, fail with a dimension error and leave the stored state and
covariance exactly as they were. -/
theorem claim_C5_dim_errors (e : EKF) (z s : List ℝ)
    (hz : z.length ≠ 2) (hs : s.length ≠ 5) :
    e.update z = (e, some updateErrMsg) ∧ e.init s = (e, some initErrMsg) := by
  constructor
  · simp only [EKF.update]
    rw [if_neg hz]
  · simp only [EKF.init]
    rw [if_neg hs]

/-- C5 witness: a 3-element measurement and a 3-element initial state are both
rejected, leaving the freshly constructed filter untouched. -/
theorem claim_C5_witness :
    (mkEKF 0.1).update [1, 2, 3] = (mkEKF 0.1, some updateErrMsg) ∧
    (mkEKF 0.1).init [1, 2, 3] = (mkEKF 0.1, some initErrMsg) :=
  claim_C5_dim_errors (mkEKF 0.1) [1, 2, 3] [1, 2, 3] (by simp) (by simp)

/-- C9: initialize with a 5-vector s, then currentState returns exactly s, and the
covariance is reset to the diagonal matrix with 10 on the diagonal and 0 elsewhere,
whatever the previous state and covariance were. -/
theorem claim_C9_init_roundtrip (e : EKF) (s : Fin 5 → ℝ) :
    (e.init (List.ofFn s)).1.state = s ∧
    (∀ i j, (e.init (List.ofFn s)).1.P_ i j = if i = j then 10 else 0) ∧
    (e.init (List.ofFn s)).2 = none := by
  rw [EKF_init_of_length e _ (List.length_ofFn s)]
  refine ⟨?_, ?_, rfl⟩
  · funext i
    show (List.ofFn s).getD i 0 = s i
    fin_cases i <;> simp [List.ofFn_succ] <;> congr 1 <;> decide
  · intro i j
    by_cases h : i = j <;>
      simp [Matrix.smul_apply, Matrix.one_apply, h]

/-- C7: one simulateStep never returns a negative speed, for any input state
(including negative input speed), any target, any distance and any positive dt. -/
theorem claim_C7_speed_nonneg (p : VehicleParams) (dt : ℝ) (s : VehicleState)
    (t d : ℝ) (hdt : 0 < dt) :
    0 ≤ (simulateStep p dt s t d).speed_ms := by
  have hv : (simulateStep p dt s t d).speed_ms =
      max 0.0 (s.speed_ms +
        calculateAcceleration p s.speed_ms t s.grade_rad d * dt) := rfl
  rw [hv]
  exact le_max_of_le_left (by norm_num)

/-- C7 witness at a concrete state and dt = 0.1. -/
theorem claim_C7_witness :
    0 < (0.1 : ℝ) ∧
    0 ≤ (simulateStep defaultParams 0.1 ⟨0, 0, 0, 0, 0, 0, 1, 0, 0⟩ 10 100).speed_ms :=
  ⟨by norm_num, claim_C7_speed_nonneg defaultParams 0.1 ⟨0, 0, 0, 0, 0, 0, 1, 0, 0⟩
    10 100 (by norm_num)⟩

/-- C8: when the speed error after clamping is at most 0.1 in absolute value,
the cruise branch is taken and the returned acceleration is exactly 0,
regardless of the resistive forces. -/
theorem claim_C8_cruise_zero (c t g d : ℝ)
    (h : |max 0 t - max 0 c| ≤ 0.1) :
    calculateAcceleration defaultParams c t g d = 0 := by
  have h1 : ¬ (0.1 < max 0 t - max 0 c) := not_lt.mpr (abs_le.mp h).2
  have h2 : ¬ (max 0 t - max 0 c < -0.1) := not_lt.mpr (abs_le.mp h).1
  simp only [calculateAcceleration]
  rw [if_neg h1, if_neg h2]
  norm_num

/-- C8 witness: the instance named by the claim, accelerationFor(20, 20, 0, 100) = 0. -/
theorem claim_C8_witness : calculateAcceleration defaultParams 20 20 0 100 = 0 :=
  claim_C8_cruise_zero 20 20 0 100 (by norm_num)

/-- C10: one simulateStep only recomputes speed, acceleration and position; the
grade, elevation, engine RPM, gear, throttle and brake fields of the returned
state are those of the input state. -/
theorem claim_C10_frame (p : VehicleParams) (dt : ℝ) (s : VehicleState) (t d : ℝ) :
    (simulateStep p dt s t d).grade_rad = s.grade_rad ∧
    (simulateStep p dt s t d).elevation_m = s.elevation_m ∧
    (simulateStep p dt s t d).engine_rpm = s.engine_rpm ∧
    (simulateStep p dt s t d).current_gear = s.current_gear ∧
    (simulateStep p dt s t d).throttle_percent = s.throttle_percent ∧
    (simulateStep p dt s t d).brake_percent = s.brake_percent :=
  ⟨rfl, rfl, rfl, rfl, rfl, rfl⟩

/-- C1: one predict call replaces the state with the constant-acceleration
kinematics using the pre-update yaw for the body-to-world rotation, wraps the
integrated yaw, and replaces the covariance with F * P * F^T + Q, where F is
the identity with dt at entries (0,2) and (1,3), and Q is the fixed
process-noise diagonal. -/
theorem claim_C1_predict (e : EKF) (a w : ℝ) :
    (e.predict a w).x_ 0 =
      e.x_ 0 + e.x_ 2 * e.dt_ + 0.5 * (a * Real.cos (e.x_ 4)) * e.dt_ ^ 2 ∧
    (e.predict a w).x_ 1 =
      e.x_ 1 + e.x_ 3 * e.dt_ + 0.5 * (a * Real.sin (e.x_ 4)) * e.dt_ ^ 2 ∧
    (e.predict a w).x_ 2 = e.x_ 2 + a * Real.cos (e.x_ 4) * e.dt_ ∧
    (e.predict a w).x_ 3 = e.x_ 3 + a * Real.sin (e.x_ 4) * e.dt_ ∧
    (e.predict a w).x_ 4 = wrap (e.x_ 4 + w * e.dt_) ∧
    (e.predict a w).P_ = Fmat e.dt_ * e.P_ * (Fmat e.dt_)ᵀ + Qmat ∧
    (∀ i j, Fmat e.dt_ i j =
      if (i = 0 ∧ j = 2) ∨ (i = 1 ∧ j = 3) then e.dt_ else if i = j then 1 else 0) ∧
    (∀ i j, Qmat i j = if i = j then ![0.001, 0.001, 0.05, 0.05, 0.01] i else 0) := by
  refine ⟨?_, ?_, ?_, ?_, predict_x4 e a w, predict_P_eq e a w, ?_, ?_⟩
  · rw [predict_x_eq]
    simp only [Matrix.cons_val_zero]
    ring
  · rw [predict_x_eq]
    simp only [Matrix.cons_val_one, Matrix.head_cons]
    ring
  · rw [predict_x_eq]
    simp only [Matrix.cons_val_two, Matrix.tail_cons, Matrix.head_cons]
  · rw [predict_x_eq]
    simp only [Matrix.cons_val_three, Matrix.tail_cons, Matrix.head_cons]
  · intro i j
    fin_cases i <;> fin_cases j <;>
      simp [Fmat, Matrix.of_apply, Matrix.vecHead, Matrix.vecTail]
  · intro i j
    simp [Qmat, Matrix.diagonal_apply]

/-- C4 counterexample: starting a filter at yaw = -pi (a legal 5-dimensional
initial state) and predicting with zero yaw rate leaves yaw exactly at -pi,
which is not strictly greater than -pi: the stored yaw is NOT always in the
half-open interval (-pi, pi]. -/
theorem claim_C4_cex :
    ¬ (-Real.pi <
      (EKF.predict ((mkEKF 0.1).init [0, 0, 0, 0, -Real.pi]).1 0 0).x_ 4) := by
  have hx : ((mkEKF 0.1).init [0, 0, 0, 0, -Real.pi]).1.x_ 4 = -Real.pi := by
    rw [EKF_init_of_length _ _ (by simp)]
    rfl
  rw [predict_x4, hx, zero_mul, add_zero, wrap_neg_pi]
  exact lt_irrefl _

/-- C4 amended: after any predict call the stored yaw lies in the closed
interval [-pi, pi]; the lower endpoint -pi is attainable, so the interval
cannot be sharpened to the half-open (-pi, pi]. -/
theorem claim_C4_amended (e : EKF) (a w : ℝ) :
    -Real.pi ≤ (e.predict a w).x_ 4 ∧ (e.predict a w).x_ 4 ≤ Real.pi := by
  rw [predict_x4]
  exact wrap_mem _

/-- C3: calculateAcceleration is total and its result is always clamped into
[-6, +4]; in addition the only unguarded gear-table access it performs (inside
calculateEngineForce, via the gear chosen by selectOptimalGear at the clamped
speeds) uses a gear in the in-bounds range 1..6. -/
theorem claim_C3_bounded (c t g d : ℝ) :
    (-6 ≤ calculateAcceleration defaultParams c t g d ∧
      calculateAcceleration defaultParams c t g d ≤ 4) ∧
    (1 ≤ selectOptimalGear defaultParams (max 0 c) (max 0 t) ∧
      selectOptimalGear defaultParams (max 0 c) (max 0 t) ≤ 6) := by
  refine ⟨⟨?_, ?_⟩, selectOptimalGear_bounds defaultParams (max 0 c) (max 0 t)⟩
  · simp only [calculateAcceleration]
    exact le_max_of_le_left (by norm_num)
  · simp only [calculateAcceleration]
    exact max_le (by norm_num) ((min_le_left _ _).trans (by norm_num))

/-- C6 counterexample: at speed 100 m/s every gear is over 0.85 * max_rpm, so
the loop falls through and selectGear(100, 100) returns the fallback gear 1,
whose RPM at 100 m/s (about 45951) far exceeds 0.85 * max_rpm = 5525. -/
theorem claim_C6_cex :
    ¬ (calculateEngineRPM defaultParams 100 (selectOptimalGear defaultParams 100 100) ≤
      0.85 * defaultParams.max_rpm) := by
  have hone : defaultParams.max_rpm * 0.85 < calculateEngineRPM defaultParams 100 1 :=
    rpm100_gear 1 (by norm_num) (by norm_num) (by rw [gearRatioAt_one]; norm_num)
  have hsel : selectOptimalGear defaultParams 100 100 = 1 := by
    have mk : ∀ gg : ℤ, defaultParams.max_rpm * 0.85 < calculateEngineRPM defaultParams 100 gg →
        ¬ (defaultParams.idle_rpm ≤ calculateEngineRPM defaultParams 100 gg ∧
          calculateEngineRPM defaultParams 100 gg ≤ defaultParams.max_rpm * 0.85 ∧
          calculateEngineRPM defaultParams 100 gg ≤ defaultParams.max_rpm * 0.9) :=
      fun gg hgg h => absurd h.2.1 (not_le.mpr hgg)
    have n1 := mk 1 hone
    have n2 := mk 2 (rpm100_gear 2 (by norm_num) (by norm_num)
      (by rw [gearRatioAt_two]; norm_num))
    have n3 := mk 3 (rpm100_gear 3 (by norm_num) (by norm_num)
      (by rw [gearRatioAt_three]; norm_num))
    have n4 := mk 4 (rpm100_gear 4 (by norm_num) (by norm_num)
      (by rw [gearRatioAt_four]; norm_num))
    have n5 := mk 5 (rpm100_gear 5 (by norm_num) (by norm_num)
      (by rw [gearRatioAt_five]; norm_num))
    have n6 := mk 6 (rpm100_gear 6 (by norm_num) (by norm_num)
      (by rw [gearRatioAt_six]; norm_num))
    simp only [selectOptimalGear]
    rw [if_neg n1, if_neg n2, if_neg n3, if_neg n4, if_neg n5, if_neg n6]
  rw [hsel]
  exact not_le.mpr (by linarith)

/-- C6 amended: for every non-negative speed v, the gear returned by
selectGear(v, v) either satisfies engineRPM(v, g) <= 0.85 * maxRPM or is the
fallback gear 1 (returned when no gear qualifies, in which case its RPM may
exceed the bound, as the counterexample at v = 100 shows). -/
theorem claim_C6_amended (v : ℝ) (hv : 0 ≤ v) :
    selectOptimalGear defaultParams v v = 1 ∨
    calculateEngineRPM defaultParams v (selectOptimalGear defaultParams v v) ≤
      0.85 * defaultParams.max_rpm := by
  rcases selectGear_cases defaultParams v v with h | h
  · exact Or.inl h
  · exact Or.inr (by linarith)

/-- C2: if the stored covariance is symmetric PSD, it is again symmetric PSD
after one predict and after one update whose innovation covariance
S = H P H^T + R is invertible (exact arithmetic). -/
theorem claim_C2_psd (e : EKF) (a w : ℝ) (z : List ℝ) (hP : e.P_.PosSemidef)
    (hz : z.length = 2) (hdet : IsUnit e.Smat.det) :
    ((e.predict a w).P_.PosSemidef ∧
      ((e.predict a w).P_)ᵀ = (e.predict a w).P_) ∧
    ((e.update z).1.P_.PosSemidef ∧
      ((e.update z).1.P_)ᵀ = (e.update z).1.P_) := by
  have hupd : (e.update z).1 = e.updateCore (fun i => z.getD i 0) := by
    simp [EKF.update, hz]
  have h1 := predict_P_psd e a w hP
  have h2 : (e.updateCore (fun i => z.getD i 0)).P_.PosSemidef :=
    updateCore_P_psd e _ hP hdet
  rw [hupd]
  exact ⟨⟨h1, psd_transpose_eq h1⟩, ⟨h2, psd_transpose_eq h2⟩⟩

/-- C2 witness: a freshly constructed filter (covariance 10 * identity, which
is symmetric PSD, with invertible innovation covariance 13 * identity) keeps a
symmetric PSD covariance through one predict and one update. -/
theorem claim_C2_witness :
    (((mkEKF 0.1).predict 0 0).P_.PosSemidef ∧
      (((mkEKF 0.1).predict 0 0).P_)ᵀ = ((mkEKF 0.1).predict 0 0).P_) ∧
    (((mkEKF 0.1).update [1, 2]).1.P_.PosSemidef ∧
      (((mkEKF 0.1).update [1, 2]).1.P_)ᵀ = ((mkEKF 0.1).update [1, 2]).1.P_) :=
  claim_C2_psd (mkEKF 0.1) 0 0 [1, 2] smul_one_psd (by simp) mkEKF_Smat_det

/-- C6 witness: the amended statement instantiated at v = 10 m/s. -/
theorem claim_C6_witness :
    selectOptimalGear defaultParams 10 10 = 1 ∨
    calculateEngineRPM defaultParams 10 (selectOptimalGear defaultParams 10 10) ≤
      0.85 * defaultParams.max_rpm :=
  claim_C6_amended 10 (by norm_num)

end
